import Mathlib

/-!
Verification of the PingPong repository (a Pong variant with two near-duplicate
source variants, src/game.hpp and src/include/game.hpp).

The game's float arithmetic is embedded over the rationals: every numeric
literal of the source is translated exactly (0.0001f becomes 1/10000, 0.5f
becomes 1/2), comparisons and clamps carry over verbatim, and std::fmod is
modelled by the truncated-division remainder it computes.  Stateful methods
become functions from the relevant state structure to itself; calls to the
renderer and audio layer mutate nothing the claims mention and are dropped.
Randomness (rand() / RAND_MAX and rand() % n) is passed in as explicit
parameters constrained to the ranges the C library guarantees.
-/

namespace PingPong

/-- State of a PlayerController (src/game.hpp lines 355-385): paddle centre
position, vertical velocity dp, and the damping coefficient. -/
structure PaddleState where
  posX : ℚ
  posY : ℚ
  dp : ℚ
  damping : ℚ

/-- PlayerController.update (src/game.hpp lines 369-379): drag is subtracted
from the driver acceleration first, the position integrates with the
pre-update velocity, then the velocity integrates. -/
def playerControllerUpdate (dt ddp0 : ℚ) (s : PaddleState) : PaddleState :=
  let ddp := ddp0 - s.dp * s.damping
  { s with
    posY := s.posY + s.dp * dt + ddp * dt * dt * (1/2)
    dp := s.dp + ddp * dt }

/-- Player.add_collision (src/game.hpp lines 562-572): clamp pos.y to the
walls at plus and minus 50 minus the half-height; on each clamp the vertical
velocity is multiplied by minus one half. -/
def playerAddCollision (height : ℚ) (s : PaddleState) : PaddleState :=
  let s1 :=
    if s.posY + height > 50 then
      { s with posY := 50 - height, dp := s.dp * (-(1/2)) }
    else s
  if s1.posY - height < -50 then
    { s1 with posY := -50 + height, dp := s1.dp * (-(1/2)) }
  else s1

/-- Player.update (src/game.hpp lines 574-587) restricted to the paddle state:
the driver (AI or input handler) accumulates an acceleration ddp0, the
controller integrates, then add_collision resolves the walls.  Rendering has
no effect on the paddle state and is dropped. -/
def playerUpdate (dt ddp0 height : ℚ) (s : PaddleState) : PaddleState :=
  playerAddCollision height (playerControllerUpdate dt ddp0 s)

/-- C1: for every paddle state, every driver acceleration (AI or human input
both only accumulate into ddp) and every dt at least 0, after Player.update
completes the paddle's pos.y lies within [-50+12, 50-12] for the fixed
half-height 12, and whenever the clamp fires dp is replaced by -0.5 times its
prior (post-integration) value. -/
theorem player_update_clamps_y (s : PaddleState) (dt ddp0 : ℚ) (hdt : 0 ≤ dt) :
    -50 + 12 ≤ (playerUpdate dt ddp0 12 s).posY ∧
    (playerUpdate dt ddp0 12 s).posY ≤ 50 - 12 ∧
    ((playerControllerUpdate dt ddp0 s).posY + 12 > 50 ∨
        (playerControllerUpdate dt ddp0 s).posY - 12 < -50 →
      (playerUpdate dt ddp0 12 s).dp
        = -(1/2) * (playerControllerUpdate dt ddp0 s).dp) := by
  set t := playerControllerUpdate dt ddp0 s with ht
  simp only [playerUpdate, ← ht, playerAddCollision]
  split_ifs with h1 h2 h2
  · norm_num at h2
  · refine ⟨by norm_num, by norm_num, fun hc => ?_⟩
    show t.dp * (-(1/2)) = -(1/2) * t.dp
    ring
  · refine ⟨by norm_num, by norm_num, fun hc => ?_⟩
    show t.dp * (-(1/2)) = -(1/2) * t.dp
    ring
  · push_neg at h1 h2
    refine ⟨by linarith, by linarith, fun hc => ?_⟩
    rcases hc with hc | hc <;> linarith

/-- Witness for C1 at a concrete input: a paddle thrown far above the top wall
with dt = 0 is clamped back to 38 and its velocity halved and inverted. -/
theorem player_update_clamps_y_witness :
    (0 : ℚ) ≤ 0 ∧
    (-50 + 12 ≤ (playerUpdate 0 0 12 ⟨-70, 100, 4, 11⟩).posY ∧
     (playerUpdate 0 0 12 ⟨-70, 100, 4, 11⟩).posY ≤ 50 - 12 ∧
     ((playerControllerUpdate 0 0 ⟨-70, 100, 4, 11⟩).posY + 12 > 50 ∨
         (playerControllerUpdate 0 0 ⟨-70, 100, 4, 11⟩).posY - 12 < -50 →
       (playerUpdate 0 0 12 ⟨-70, 100, 4, 11⟩).dp
         = -(1/2) * (playerControllerUpdate 0 0 ⟨-70, 100, 4, 11⟩).dp)) :=
  ⟨le_refl 0, player_update_clamps_y ⟨-70, 100, 4, 11⟩ 0 0 (le_refl 0)⟩

/-- Truncation toward zero of a rational (integer division of the numerator
by the denominator truncates toward zero), matching the rounding std::fmod
performs. -/
def ratTrunc (q : ℚ) : ℤ := q.num / (q.den : ℤ)

/-- std::fmod on rationals: the remainder x - m * trunc(x / m), which carries
the sign of the dividend. -/
def ratFmod (x m : ℚ) : ℚ := x - m * ratTrunc (x / m)

/-- The AI trajectory fold transform from Player.predict_ball (src/game.hpp
lines 424-435): shift the projected y by the bottom wall, reduce modulo twice
the span with non-negative normalisation, and reflect the upper half-cycle. -/
def foldTrajectory (projY : ℚ) : ℚ :=
  let top : ℚ := 50
  let bottom : ℚ := -50
  let span := top - bottom
  let shifted := projY - bottom
  let cycle0 := ratFmod shifted (2 * span)
  let cycle := if cycle0 < 0 then cycle0 + 2 * span else cycle0
  if cycle ≤ span then bottom + cycle else top - (cycle - span)

/-- C3 counterexample: the fold transform maps a projected y of 130 to -30,
not to 30 as the claim states (the 60 and 150 cases do hold). -/
theorem foldTrajectory_130_refutes :
    ¬ (foldTrajectory 130 = 30 ∧ foldTrajectory 60 = 40 ∧
        foldTrajectory 150 = -50) := by
  norm_num [foldTrajectory, ratFmod, ratTrunc]

/-- C3 amended: the fold transform maps a projected y of 130 to -30 (the
excess 80 above the top wall reflects down to 50 - 80), a projected y of 60
to 40, and a projected y of 150 to -50. -/
theorem foldTrajectory_values :
    foldTrajectory 130 = -30 ∧ foldTrajectory 60 = 40 ∧
      foldTrajectory 150 = -50 := by
  norm_num [foldTrajectory, ratFmod, ratTrunc]

/-- Ball and scoring state of BallController (src/game.hpp lines 592-622)
together with the two player scores it mutates through back-references. -/
structure BallState where
  posX : ℚ
  posY : ℚ
  velX : ℚ
  velY : ℚ
  size : ℚ
  scored : Bool
  winner : ℤ
  score1 : ℕ
  score2 : ℕ

/-- Geometry and motion of one paddle as read by BallController.add_collision
(player.controller.pos, player.width, player.height, player.controller.dp). -/
structure PaddleRead where
  px : ℚ
  py : ℚ
  width : ℚ
  height : ℚ
  dp : ℚ

/-- Vertical-wall portion of BallController.add_collision (src/game.hpp lines
783-791): clamp pos.y at the plus and minus 50 walls and fully invert vel.y. -/
def ballWallStep (s : BallState) : BallState :=
  let s1 :=
    if s.posY + s.size > 50 then
      { s with posY := 50 - s.size, velY := -s.velY }
    else s
  if s1.posY - s1.size < -50 then
    { s1 with posY := -50 + s1.size, velY := -s1.velY }
  else s1

/-- BallController.add_collision of src/game.hpp (lines 782-832): wall
bounces, then the two goal checks (each returns early), then the paddle
overlap test with reposition, x-velocity inversion plus epsilon bias, and the
vertical "english" term.  Score increments through the player back-references
are carried in score1/score2. -/
def ballAddCollision (player : PaddleRead) (s : BallState) : BallState :=
  let w := ballWallStep s
  if w.posX + w.size > 80 then
    { w with scored := true, winner := 1, posX := 80 + w.size,
             score1 := w.score1 + 1 }
  else if w.posX - w.size < -80 then
    { w with scored := true, winner := 2, posX := -80 - w.size,
             score2 := w.score2 + 1 }
  else if |w.posX - player.px| ≤ player.width + w.size ∧
      |w.posY - player.py| ≤ player.height + w.size then
    let s2 :=
      { w with posX := if w.velX < 0 then player.px + player.width + w.size
                       else player.px - player.width - w.size }
    let s3 := { s2 with velX := -s2.velX + 1/10000 }
    { s3 with
      velY := s3.velY + (s3.posY - player.py) / player.height * 38
                + player.dp * (1/5) }
  else w

/-- BallController.add_collision of the second variant (src/include/game.hpp
lines 901-960).  It is identical except that the paddle branch adds a further
0.0001 to vel.y; the pulse_timer write and the audio cue affect nothing the
ball state carries and are dropped. -/
def ballAddCollisionV2 (player : PaddleRead) (s : BallState) : BallState :=
  let w := ballWallStep s
  if w.posX + w.size > 80 then
    { w with scored := true, winner := 1, posX := 80 + w.size,
             score1 := w.score1 + 1 }
  else if w.posX - w.size < -80 then
    { w with scored := true, winner := 2, posX := -80 - w.size,
             score2 := w.score2 + 1 }
  else if |w.posX - player.px| ≤ player.width + w.size ∧
      |w.posY - player.py| ≤ player.height + w.size then
    let s2 :=
      { w with posX := if w.velX < 0 then player.px + player.width + w.size
                       else player.px - player.width - w.size }
    let s3 := { s2 with velX := -s2.velX + 1/10000 }
    { s3 with
      velY := s3.velY + ((s3.posY - player.py) / player.height * 38
                + player.dp * (1/5) + 1/10000) }
  else w

/-- The paddle-overlap test fires inside add_collision: after the wall step
neither goal check triggers and both axis overlap tests hold. -/
def paddleHitFires (player : PaddleRead) (s : BallState) : Prop :=
  ¬ ((ballWallStep s).posX + (ballWallStep s).size > 80) ∧
  ¬ ((ballWallStep s).posX - (ballWallStep s).size < -80) ∧
  (|(ballWallStep s).posX - player.px| ≤ player.width + (ballWallStep s).size ∧
   |(ballWallStep s).posY - player.py| ≤ player.height + (ballWallStep s).size)

/-- The wall step only touches pos.y and vel.y. -/
theorem ballWallStep_preserves (s : BallState) :
    (ballWallStep s).posX = s.posX ∧ (ballWallStep s).velX = s.velX ∧
    (ballWallStep s).size = s.size ∧ (ballWallStep s).scored = s.scored ∧
    (ballWallStep s).winner = s.winner ∧
    (ballWallStep s).score1 = s.score1 ∧
    (ballWallStep s).score2 = s.score2 := by
  simp only [ballWallStep]
  split_ifs <;> simp

/-- When the paddle-overlap test fires, both variants produce the same
post-collision velocities up to the documented vel.y discrepancy. -/
theorem ballAddCollision_hit_velocities (player : PaddleRead) (s : BallState)
    (h : paddleHitFires player s) :
    (ballAddCollision player s).velX = -s.velX + 1/10000 ∧
    (ballAddCollision player s).velY
      = (ballWallStep s).velY
          + ((ballWallStep s).posY - player.py) / player.height * 38
          + player.dp * (1/5) ∧
    (ballAddCollisionV2 player s).velX = -s.velX + 1/10000 ∧
    (ballAddCollisionV2 player s).velY
      = (ballWallStep s).velY
          + ((ballWallStep s).posY - player.py) / player.height * 38
          + player.dp * (1/5) + 1/10000 := by
  obtain ⟨hg1, hg2, ho⟩ := h
  have hvx := (ballWallStep_preserves s).2.1
  simp only [ballAddCollision, ballAddCollisionV2]
  rw [if_neg hg1, if_neg hg2, if_pos ho, if_neg hg1, if_neg hg2, if_pos ho]
  refine ⟨?_, ?_, ?_, ?_⟩
  · show -(ballWallStep s).velX + 1/10000 = -s.velX + 1/10000
    rw [hvx]
  · rfl
  · show -(ballWallStep s).velX + 1/10000 = -s.velX + 1/10000
    rw [hvx]
  · show (ballWallStep s).velY
        + (((ballWallStep s).posY - player.py) / player.height * 38
            + player.dp * (1/5) + 1/10000)
      = (ballWallStep s).velY
          + ((ballWallStep s).posY - player.py) / player.height * 38
          + player.dp * (1/5) + 1/10000
    ring

/-- The right-hand paddle exactly as Window.mainloop initialises player2:
x = 70, width 2, height 12, here at rest at the vertical centre. -/
def rightPaddle : PaddleRead := ⟨70, 0, 2, 12, 0⟩

/-- The left-hand paddle as Window.mainloop initialises player1. -/
def leftPaddle : PaddleRead := ⟨-70, 0, 2, 12, 0⟩

/-- A ball over the right paddle whose incoming vel.x equals the epsilon bias
0.0001 itself. -/
def epsBall : BallState := ⟨70, 0, 1/10000, 0, 6/5, false, 0, 0, 0⟩

/-- A ball hitting the right paddle slightly above its centre at serve speed. -/
def fastBall : BallState := ⟨70, 3, 95, 0, 6/5, false, 0, 0, 0⟩

/-- A ball hitting the right paddle below centre while moving upward. -/
def spinBall : BallState := ⟨70, -6, 95, 20, 6/5, false, 0, 0, 0⟩

/-- C2 counterexample: when the pre-collision vel.x is exactly the epsilon
0.0001, the paddle-overlap test fires yet the post-collision vel.x
(-0.0001 + 0.0001) is exactly zero, refuting the claim for that input. -/
theorem ball_bounce_eps_velx_zero :
    paddleHitFires rightPaddle epsBall ∧
    (ballAddCollision rightPaddle epsBall).velX = 0 := by
  have hf : paddleHitFires rightPaddle epsBall := by
    norm_num [paddleHitFires, ballWallStep, rightPaddle, epsBall]
  refine ⟨hf, ?_⟩
  rw [(ballAddCollision_hit_velocities rightPaddle epsBall hf).1]
  norm_num [epsBall]

/-- C2 amended: for every pre-collision ball state in which the paddle-overlap
test fires and whose pre-collision vel.x is not exactly the 0.0001 epsilon
bias, the post-collision vel.x (vel.x mapped to -vel.x + 0.0001) is strictly
nonzero, in both source variants. -/
theorem ball_bounce_velx_nonzero (player : PaddleRead) (s : BallState)
    (hfire : paddleHitFires player s) (hv : s.velX ≠ 1/10000) :
    (ballAddCollision player s).velX ≠ 0 ∧
    (ballAddCollisionV2 player s).velX ≠ 0 := by
  obtain ⟨hx1, _, hx2, _⟩ := ballAddCollision_hit_velocities player s hfire
  rw [hx1, hx2]
  constructor <;> intro h0 <;> exact hv (by linarith)

/-- Witness for C2 amended at a concrete input: the serve-speed ball bounces
off the right paddle with a strictly nonzero vel.x in both variants. -/
theorem ball_bounce_velx_nonzero_witness :
    paddleHitFires rightPaddle fastBall ∧ fastBall.velX ≠ 1/10000 ∧
    ((ballAddCollision rightPaddle fastBall).velX ≠ 0 ∧
     (ballAddCollisionV2 rightPaddle fastBall).velX ≠ 0) := by
  have hf : paddleHitFires rightPaddle fastBall := by
    norm_num [paddleHitFires, ballWallStep, rightPaddle, fastBall]
  have hv : fastBall.velX ≠ 1/10000 := by norm_num [fastBall]
  exact ⟨hf, hv, ball_bounce_velx_nonzero rightPaddle fastBall hf hv⟩

/-- C5 counterexample: for an identical pre-collision state in which the
overlap test fires, the two variants do not produce the same post-collision
ball velocity (the second variant's vel.y is larger by 0.0001). -/
theorem variants_not_velocity_equal :
    paddleHitFires rightPaddle spinBall ∧
    ¬ ((ballAddCollisionV2 rightPaddle spinBall).velX
          = (ballAddCollision rightPaddle spinBall).velX ∧
       (ballAddCollisionV2 rightPaddle spinBall).velY
          = (ballAddCollision rightPaddle spinBall).velY) := by
  have hf : paddleHitFires rightPaddle spinBall := by
    norm_num [paddleHitFires, ballWallStep, rightPaddle, spinBall]
  obtain ⟨hx1, hy1, hx2, hy2⟩ :=
    ballAddCollision_hit_velocities rightPaddle spinBall hf
  refine ⟨hf, fun hc => ?_⟩
  have hy := hc.2
  rw [hy1, hy2] at hy
  linarith

/-- C5 amended: on every state where the paddle overlap fires, the two
variants agree on the post-collision vel.x; variant 1 adds to vel.y exactly
the term ((ball.y - paddle.y)/paddle.height) * 38 + paddle.dp * 0.20 of the
spec, while variant 2 adds that term plus a further 0.0001, so its vel.y
exceeds variant 1's by exactly 0.0001. -/
theorem variants_paddle_bounce_relation (player : PaddleRead) (s : BallState)
    (hfire : paddleHitFires player s) :
    (ballAddCollisionV2 player s).velX = (ballAddCollision player s).velX ∧
    (ballAddCollision player s).velY
      = (ballWallStep s).velY
          + ((ballWallStep s).posY - player.py) / player.height * 38
          + player.dp * (1/5) ∧
    (ballAddCollisionV2 player s).velY
      = (ballAddCollision player s).velY + 1/10000 := by
  obtain ⟨hx1, hy1, hx2, hy2⟩ := ballAddCollision_hit_velocities player s hfire
  exact ⟨hx2.trans hx1.symm, hy1, by rw [hy2, hy1]⟩

/-- Witness for C5 amended at a concrete input: the below-centre hit on the
right paddle. -/
theorem variants_paddle_bounce_relation_witness :
    paddleHitFires rightPaddle fastBall ∧
    ((ballAddCollisionV2 rightPaddle fastBall).velX
        = (ballAddCollision rightPaddle fastBall).velX ∧
     (ballAddCollision rightPaddle fastBall).velY
        = (ballWallStep fastBall).velY
            + ((ballWallStep fastBall).posY - rightPaddle.py)
                / rightPaddle.height * 38
            + rightPaddle.dp * (1/5) ∧
     (ballAddCollisionV2 rightPaddle fastBall).velY
        = (ballAddCollision rightPaddle fastBall).velY + 1/10000) := by
  have hf : paddleHitFires rightPaddle fastBall := by
    norm_num [paddleHitFires, ballWallStep, rightPaddle, fastBall]
  exact ⟨hf, variants_paddle_bounce_relation rightPaddle fastBall hf⟩

/-- BallController.update_physics (src/game.hpp lines 834-837): Euler
integration of the position by the velocity. -/
def ballUpdatePhysics (dt : ℚ) (s : BallState) : BallState :=
  { s with posX := s.posX + s.velX * dt, posY := s.posY + s.velY * dt }

/-- BallController.update (src/game.hpp lines 839-851): frozen once scored,
otherwise integrate, collide with player1's paddle, and only if that did not
score collide with player2's paddle. -/
def ballUpdate (dt : ℚ) (p1 p2 : PaddleRead) (s : BallState) : BallState :=
  if s.scored = true then s
  else
    let s1 := ballUpdatePhysics dt s
    let s2 := ballAddCollision p1 s1
    if s2.scored = true then s2 else ballAddCollision p2 s2

/-- One add_collision call either leaves scoring state alone, or scores for
winner 1 incrementing score1 only, or scores for winner 2 incrementing
score2 only. -/
theorem ballAddCollision_score_cases (p : PaddleRead) (s : BallState) :
    ((ballAddCollision p s).scored = s.scored ∧
     (ballAddCollision p s).winner = s.winner ∧
     (ballAddCollision p s).score1 = s.score1 ∧
     (ballAddCollision p s).score2 = s.score2) ∨
    ((ballAddCollision p s).scored = true ∧
     (ballAddCollision p s).winner = 1 ∧
     (ballAddCollision p s).score1 = s.score1 + 1 ∧
     (ballAddCollision p s).score2 = s.score2) ∨
    ((ballAddCollision p s).scored = true ∧
     (ballAddCollision p s).winner = 2 ∧
     (ballAddCollision p s).score1 = s.score1 ∧
     (ballAddCollision p s).score2 = s.score2 + 1) := by
  obtain ⟨_, _, _, hsc, hw, h1, h2⟩ := ballWallStep_preserves s
  simp only [ballAddCollision]
  split_ifs with hA hB hC
  · exact Or.inr (Or.inl ⟨rfl, rfl, by simp [h1], by simp [h2]⟩)
  · exact Or.inr (Or.inr ⟨rfl, rfl, by simp [h1], by simp [h2]⟩)
  all_goals exact Or.inl ⟨hsc, hw, h1, h2⟩

/-- C4: a single BallController.update call from a not-yet-scored state
either does not score (scores and winner unchanged), or scores for exactly
one winner, incrementing exactly that player's score by exactly one
(winner 1 goes with score1, winner 2 with score2); both outcomes at once are
impossible. -/
theorem ball_update_scoring (dt : ℚ) (p1 p2 : PaddleRead) (s : BallState)
    (h : s.scored = false) :
    ((ballUpdate dt p1 p2 s).scored = true →
      ((ballUpdate dt p1 p2 s).winner = 1 ∧
       (ballUpdate dt p1 p2 s).score1 = s.score1 + 1 ∧
       (ballUpdate dt p1 p2 s).score2 = s.score2) ∨
      ((ballUpdate dt p1 p2 s).winner = 2 ∧
       (ballUpdate dt p1 p2 s).score2 = s.score2 + 1 ∧
       (ballUpdate dt p1 p2 s).score1 = s.score1)) ∧
    ((ballUpdate dt p1 p2 s).scored = false →
      (ballUpdate dt p1 p2 s).winner = s.winner ∧
      (ballUpdate dt p1 p2 s).score1 = s.score1 ∧
      (ballUpdate dt p1 p2 s).score2 = s.score2) := by
  simp only [ballUpdate, h, Bool.false_eq_true, if_false]
  rcases ballAddCollision_score_cases p1 (ballUpdatePhysics dt s) with
    ⟨c1, c2, c3, c4⟩ | ⟨c1, c2, c3, c4⟩ | ⟨c1, c2, c3, c4⟩
  · have hb : (ballAddCollision p1 (ballUpdatePhysics dt s)).scored = false :=
      c1.trans h
    rw [if_neg (by simp [hb])]
    rcases ballAddCollision_score_cases p2
        (ballAddCollision p1 (ballUpdatePhysics dt s)) with
      ⟨d1, d2, d3, d4⟩ | ⟨d1, d2, d3, d4⟩ | ⟨d1, d2, d3, d4⟩
    · refine ⟨fun hs => ?_, fun _ => ⟨d2.trans c2, d3.trans c3, d4.trans c4⟩⟩
      exact absurd ((d1.trans hb).symm.trans hs) (by simp)
    · refine ⟨fun _ => Or.inl ⟨d2, by rw [d3, c3]; rfl, d4.trans c4⟩,
        fun hs => ?_⟩
      exact absurd (d1.symm.trans hs) (by simp)
    · refine ⟨fun _ => Or.inr ⟨d2, by rw [d4, c4]; rfl, d3.trans c3⟩,
        fun hs => ?_⟩
      exact absurd (d1.symm.trans hs) (by simp)
  · rw [if_pos c1]
    exact ⟨fun _ => Or.inl ⟨c2, c3, c4⟩,
      fun hs => absurd (c1.symm.trans hs) (by simp)⟩
  · rw [if_pos c1]
    exact ⟨fun _ => Or.inr ⟨c2, c4, c3⟩,
      fun hs => absurd (c1.symm.trans hs) (by simp)⟩

/-- Witness for C4 at a concrete input: a fresh serve between the two menu
paddles. -/
theorem ball_update_scoring_witness :
    (⟨0, 0, 95, 0, 6/5, false, 0, 0, 0⟩ : BallState).scored = false ∧
    (((ballUpdate 1 leftPaddle rightPaddle
          ⟨0, 0, 95, 0, 6/5, false, 0, 0, 0⟩).scored = true →
      ((ballUpdate 1 leftPaddle rightPaddle
          ⟨0, 0, 95, 0, 6/5, false, 0, 0, 0⟩).winner = 1 ∧
       (ballUpdate 1 leftPaddle rightPaddle
          ⟨0, 0, 95, 0, 6/5, false, 0, 0, 0⟩).score1 = 0 + 1 ∧
       (ballUpdate 1 leftPaddle rightPaddle
          ⟨0, 0, 95, 0, 6/5, false, 0, 0, 0⟩).score2 = 0) ∨
      ((ballUpdate 1 leftPaddle rightPaddle
          ⟨0, 0, 95, 0, 6/5, false, 0, 0, 0⟩).winner = 2 ∧
       (ballUpdate 1 leftPaddle rightPaddle
          ⟨0, 0, 95, 0, 6/5, false, 0, 0, 0⟩).score2 = 0 + 1 ∧
       (ballUpdate 1 leftPaddle rightPaddle
          ⟨0, 0, 95, 0, 6/5, false, 0, 0, 0⟩).score1 = 0)) ∧
     ((ballUpdate 1 leftPaddle rightPaddle
          ⟨0, 0, 95, 0, 6/5, false, 0, 0, 0⟩).scored = false →
      (ballUpdate 1 leftPaddle rightPaddle
          ⟨0, 0, 95, 0, 6/5, false, 0, 0, 0⟩).winner = 0 ∧
      (ballUpdate 1 leftPaddle rightPaddle
          ⟨0, 0, 95, 0, 6/5, false, 0, 0, 0⟩).score1 = 0 ∧
      (ballUpdate 1 leftPaddle rightPaddle
          ⟨0, 0, 95, 0, 6/5, false, 0, 0, 0⟩).score2 = 0)) :=
  ⟨rfl, ball_update_scoring 1 leftPaddle rightPaddle
      ⟨0, 0, 95, 0, 6/5, false, 0, 0, 0⟩ rfl⟩

/-- Ball.reset (src/game.hpp lines 754-763): recentre the ball, negate the
horizontal velocity, zero the vertical velocity, clear scored and winner. -/
def ballReset (s : BallState) : BallState :=
  { s with
    posX := 0
    posY := 0
    velX := -s.velX
    velY := 0
    scored := false
    winner := 0 }

/-- C10: after Ball.reset the position is (0,0), velY is 0, scored is false,
winner is 0, and velX is exactly the negation of its pre-reset value, so the
serve alternates and the x-speed magnitude (epsilon bias included) carries
over unchanged rather than being re-initialised. -/
theorem ball_reset_spec (s : BallState) :
    (ballReset s).posX = 0 ∧ (ballReset s).posY = 0 ∧
    (ballReset s).velY = 0 ∧ (ballReset s).scored = false ∧
    (ballReset s).winner = 0 ∧ (ballReset s).velX = -s.velX ∧
    |(ballReset s).velX| = |s.velX| :=
  ⟨rfl, rfl, rfl, rfl, rfl, rfl, abs_neg s.velX⟩

/-- Particle (src/game.hpp lines 624-628): position, velocity, and remaining
life in seconds. -/
structure Particle where
  px : ℚ
  py : ℚ
  vx : ℚ
  vy : ℚ
  life : ℚ

/-- Observable state of a ParticleBurst (src/game.hpp lines 630-700): the
particle collection and the active flag. -/
structure BurstState where
  particles : List Particle
  active : Bool

/-- ParticleBurst's fixed spawn count (the count field, 80). -/
def burstCount : ℕ := 80

/-- ParticleBurst's base lifetime (the lifetime field, 1.0f); start gives
each particle a life of lifetime * (0.5 + r * 0.5) with r drawn in [0,1],
hence positive and at most the base lifetime. -/
def burstLifetime : ℚ := 1

/-- ParticleBurst.start (src/game.hpp lines 648-667): clear the collection,
set active, and push count particles whose randomized velocities and lives
enter through the spawn parameter. -/
def burstStart (spawn : List Particle) (b : BurstState) : BurstState :=
  { b with particles := spawn, active := true }

/-- ParticleBurst.update (src/game.hpp lines 669-683): no-op when inactive;
otherwise integrate every particle and decrement its life by dt, remove the
particles with life at most 0, and deactivate once the collection empties. -/
def burstUpdate (dt : ℚ) (b : BurstState) : BurstState :=
  if b.active = false then b
  else
    let moved := b.particles.map fun p =>
      { p with px := p.px + p.vx * dt, py := p.py + p.vy * dt,
               life := p.life - dt }
    let remaining := moved.filter fun p => !decide (p.life ≤ 0)
    { particles := remaining,
      active := if remaining.isEmpty then false else b.active }

/-- ParticleBurst.finished (src/game.hpp line 699): true exactly when the
active flag is down. -/
def burstFinished (b : BurstState) : Bool := !b.active

/-- The pause-menu Restart and Main-Menu branches (src/include/game.hpp lines
1703 and 1719) assign particle_burst.active = false directly, without
clearing the particle collection. -/
def pauseMenuDeactivate (b : BurstState) : BurstState :=
  { b with active := false }

/-- A sequence of update ticks. -/
def burstUpdates (dts : List ℚ) (b : BurstState) : BurstState :=
  dts.foldl (fun a dt => burstUpdate dt a) b

/-- Burst states produced by the burst's own interface alone: the
default-constructed burst, start with the fixed spawn count, and update. -/
inductive BurstReachable : BurstState → Prop
  | base : BurstReachable ⟨[], false⟩
  | start (spawn : List Particle) (b : BurstState)
      (h : spawn.length = burstCount) : BurstReachable (burstStart spawn b)
  | update (dt : ℚ) (b : BurstState) (h : BurstReachable b) :
      BurstReachable (burstUpdate dt b)

/-- One update preserves the activity iff nonempty invariant. -/
theorem burstUpdate_active_iff (dt : ℚ) (b : BurstState)
    (h : b.active = true ↔ b.particles ≠ []) :
    (burstUpdate dt b).active = true ↔ (burstUpdate dt b).particles ≠ [] := by
  simp only [burstUpdate]
  split_ifs with h1 h2
  · exact h
  · simp_all [List.isEmpty_iff]
  · simp_all [List.isEmpty_iff]

/-- On every state reachable through the burst's own interface, the active
flag is up exactly when particles remain. -/
theorem burstReachable_active_iff (b : BurstState) (h : BurstReachable b) :
    b.active = true ↔ b.particles ≠ [] := by
  induction h with
  | base => simp
  | start spawn b0 hlen =>
    simp only [burstCount] at hlen
    refine ⟨fun _ hnil => ?_, fun _ => rfl⟩
    have hnil2 : spawn = [] := hnil
    rw [hnil2] at hlen
    simp at hlen
  | update dt b0 h ih => exact burstUpdate_active_iff dt b0 ih

/-- Update sequences stay inside the burst's own interface. -/
theorem burstUpdates_reachable (dts : List ℚ) (b : BurstState)
    (h : BurstReachable b) : BurstReachable (burstUpdates dts b) := by
  induction dts generalizing b with
  | nil => exact h
  | cons dt dts ih =>
    show BurstReachable (burstUpdates dts (burstUpdate dt b))
    exact ih (burstUpdate dt b) (BurstReachable.update dt b h)

/-- An update sequence whose accumulated time exceeds every particle's life
empties the collection (lives are positive on entry, as start guarantees). -/
theorem burstUpdates_empty (dts : List ℚ) : ∀ (b : BurstState) (L : ℚ),
    (b.active = false → b.particles = []) →
    (∀ p ∈ b.particles, 0 < p.life ∧ p.life ≤ L) →
    L < dts.sum → (burstUpdates dts b).particles = [] := by
  induction dts with
  | nil =>
    intro b L hinv hlife hsum
    simp only [List.sum_nil] at hsum
    rw [List.eq_nil_iff_forall_not_mem]
    intro p hp
    obtain ⟨hpos, hle⟩ := hlife p hp
    linarith
  | cons dt dts ih =>
    intro b L hinv hlife hsum
    simp only [List.sum_cons] at hsum
    show (burstUpdates dts (burstUpdate dt b)).particles = []
    by_cases hb : b.active = false
    · have hstep : burstUpdate dt b = b := by simp [burstUpdate, hb]
      rw [hstep]
      refine ih b (L - dt) hinv ?_ (by linarith)
      intro p hp
      rw [hinv hb] at hp
      simp at hp
    · have hstep :
          (burstUpdate dt b).particles
            = (b.particles.map fun p =>
                { p with px := p.px + p.vx * dt, py := p.py + p.vy * dt,
                         life := p.life - dt }).filter
                fun p => !decide (p.life ≤ 0) := by
        simp [burstUpdate, hb]
      refine ih (burstUpdate dt b) (L - dt) ?_ ?_ (by linarith)
      · intro hact
        simp only [burstUpdate, if_neg hb] at hact ⊢
        split_ifs at hact ⊢ with he
        · simpa [List.isEmpty_iff] using he
        · simp only [Bool.not_eq_false] at hb
          rw [hb] at hact
          simp at hact
      · intro q hq
        rw [hstep] at hq
        rw [List.mem_filter] at hq
        obtain ⟨hqm, hqpos⟩ := hq
        rw [List.mem_map] at hqm
        obtain ⟨p, hp, hpq⟩ := hqm
        obtain ⟨_, hple⟩ := hlife p hp
        constructor
        · simp only [Bool.not_eq_eq_eq_not, Bool.not_true, decide_eq_false_iff_not,
            not_le] at hqpos
          exact hqpos
        · rw [← hpq]
          simp only []
          linarith

/-- C6 amended: finished() is true iff zero particles remain on every state
reachable through the burst's own start/update interface; a burst started
with the fixed count 80 is not finished immediately after start, and is
finished once the accumulated update time exceeds the maximum particle life.
(The pause menu's direct active=false write, outside this interface, breaks
the right-to-left direction; see the counterexample.) -/
theorem burst_finished_iff_empty :
    (∀ b : BurstState, BurstReachable b →
      (burstFinished b = true ↔ b.particles = [])) ∧
    (∀ (spawn : List Particle) (b : BurstState), spawn.length = burstCount →
      burstFinished (burstStart spawn b) = false) ∧
    (∀ (spawn : List Particle) (b : BurstState) (dts : List ℚ),
      spawn.length = burstCount →
      (∀ p ∈ spawn, 0 < p.life ∧ p.life ≤ burstLifetime) →
      burstLifetime < dts.sum →
      burstFinished (burstUpdates dts (burstStart spawn b)) = true) := by
  have hchar : ∀ b : BurstState, BurstReachable b →
      (burstFinished b = true ↔ b.particles = []) := by
    intro b h
    have hiff := burstReachable_active_iff b h
    simp only [burstFinished, Bool.not_eq_eq_eq_not, Bool.not_true]
    constructor
    · intro hact
      by_contra hne
      exact absurd (hiff.mpr hne) (by simp [hact])
    · intro hnil
      by_contra hact
      exact hiff.mp (by simpa using hact) hnil
  refine ⟨hchar, fun spawn b _ => rfl, fun spawn b dts hlen hlife hsum => ?_⟩
  have hreach : BurstReachable (burstUpdates dts (burstStart spawn b)) :=
    burstUpdates_reachable dts _ (BurstReachable.start spawn b hlen)
  have hempty : (burstUpdates dts (burstStart spawn b)).particles = [] := by
    refine burstUpdates_empty dts (burstStart spawn b) burstLifetime
      (by simp [burstStart]) ?_ hsum
    intro p hp
    exact hlife p hp
  exact (hchar _ hreach).mpr hempty

/-- Witness for C6 amended at concrete inputs: the default burst, a freshly
started 80-particle burst, and that burst after a single 2-second tick. -/
theorem burst_finished_iff_empty_witness :
    (burstFinished ⟨[], false⟩ = true ↔ ([] : List Particle) = []) ∧
    burstFinished
      (burstStart (List.replicate 80 ⟨0, 0, 0, 0, 1/2⟩) ⟨[], false⟩) = false ∧
    burstFinished
      (burstUpdates [2]
        (burstStart (List.replicate 80 ⟨0, 0, 0, 0, 1/2⟩) ⟨[], false⟩))
      = true := by
  refine ⟨burst_finished_iff_empty.1 _ BurstReachable.base,
    burst_finished_iff_empty.2.1 _ _ (by simp [burstCount]),
    burst_finished_iff_empty.2.2 _ _ [2] (by simp [burstCount]) ?_
      (by norm_num [burstLifetime])⟩
  intro p hp
  rw [List.mem_replicate] at hp
  rw [hp.2]
  norm_num [burstLifetime]

/-- C6 counterexample: after the pause-menu deactivation of a freshly started
burst, finished() returns true while 80 particles remain, refuting the iff
for reachable program states. -/
theorem burst_finished_pause_menu_cex :
    burstFinished
      (pauseMenuDeactivate
        (burstStart (List.replicate 80 ⟨0, 0, 0, 0, 1/2⟩) ⟨[], false⟩))
      = true ∧
    (pauseMenuDeactivate
        (burstStart (List.replicate 80 ⟨0, 0, 0, 0, 1/2⟩) ⟨[], false⟩)).particles
      ≠ [] := by
  refine ⟨rfl, ?_⟩
  simp [pauseMenuDeactivate, burstStart]

/-- Adjustable values of the Settings menu (the static locals _ball_speed,
_paddle_speed, _paddle_damping, _ai_difficulty of src/game.hpp lines
1036-1040). -/
structure SettingsState where
  ballSpeed : ℚ
  paddleSpeed : ℚ
  paddleDamping : ℚ
  aiDifficulty : ℤ

/-- Initial values of the Settings menu statics (src/game.hpp lines
1037-1040): 1.0, 1.0, 1.4, difficulty 1. -/
def settingsInitial : SettingsState := ⟨1, 1, 7/5, 1⟩

/-- A left-arrow press with the given settings_index (src/game.hpp lines
1107-1116): decrement the selected row, clamping from below. -/
def settingsLeft (row : ℤ) (s : SettingsState) : SettingsState :=
  if row = 0 then { s with ballSpeed := max (1/2) (s.ballSpeed - 1/10) }
  else if row = 1 then
    { s with paddleSpeed := max (1/2) (s.paddleSpeed - 1/10) }
  else if row = 2 then
    { s with paddleDamping := max (4/5) (s.paddleDamping - 1/10) }
  else if row = 3 then { s with aiDifficulty := max 0 (s.aiDifficulty - 1) }
  else s

/-- A right-arrow press with the given settings_index (src/game.hpp lines
1118-1127): increment the selected row, clamping from above. -/
def settingsRight (row : ℤ) (s : SettingsState) : SettingsState :=
  if row = 0 then { s with ballSpeed := min 3 (s.ballSpeed + 1/10) }
  else if row = 1 then
    { s with paddleSpeed := min 3 (s.paddleSpeed + 1/10) }
  else if row = 2 then
    { s with paddleDamping := min 2 (s.paddleDamping + 1/10) }
  else if row = 3 then { s with aiDifficulty := min 4 (s.aiDifficulty + 1) }
  else s

/-- One Settings-menu adjustment: a left or right press on some row. -/
inductive SettingsEvent
  | left (row : ℤ)
  | right (row : ℤ)

/-- Apply one adjustment. -/
def settingsStep (s : SettingsState) (e : SettingsEvent) : SettingsState :=
  match e with
  | .left row => settingsLeft row s
  | .right row => settingsRight row s

/-- Apply a whole sequence of adjustments starting from the menu's initial
values. -/
def settingsRun (es : List SettingsEvent) : SettingsState :=
  es.foldl settingsStep settingsInitial

/-- std::round on rationals: round half away from zero, as C guarantees. -/
def ratRound (q : ℚ) : ℤ := if 0 ≤ q then ⌊q + 1/2⌋ else ⌈q - 1/2⌉

/-- utils::round_to with one decimal (src/include/game.hpp lines 42-45):
round(value * 10) / 10. -/
def round_to (q : ℚ) : ℚ := (ratRound (q * 10) : ℚ) / 10

/-- An integer upper bound survives ratRound. -/
theorem ratRound_le (x : ℚ) (B : ℤ) (h : x ≤ B) : (ratRound x : ℚ) ≤ B := by
  simp only [ratRound]
  split_ifs with h0
  · have h1 : ⌊x + 1/2⌋ < B + 1 := Int.floor_lt.mpr (by push_cast; linarith)
    have h2 : ⌊x + 1/2⌋ ≤ B := by omega
    exact_mod_cast h2
  · have h2 : ⌈x - 1/2⌉ ≤ B := Int.ceil_le.mpr (by push_cast; linarith)
    exact_mod_cast h2

/-- An integer lower bound survives ratRound. -/
theorem ratRound_ge (x : ℚ) (B : ℤ) (h : (B : ℚ) ≤ x) :
    (B : ℚ) ≤ ratRound x := by
  simp only [ratRound]
  split_ifs with h0
  · have h2 : B ≤ ⌊x + 1/2⌋ := Int.le_floor.mpr (by push_cast; linarith)
    exact_mod_cast h2
  · have h1 : B - 1 < ⌈x - 1/2⌉ := Int.lt_ceil.mpr (by push_cast; linarith)
    have h2 : B ≤ ⌈x - 1/2⌉ := by omega
    exact_mod_cast h2

/-- Bound used by the variant-2 left presses: one rounded decrement from a
value at most 2.9 stays at most 3. -/
theorem round_to_le_three (q : ℚ) (h : q ≤ 29/10) : round_to q ≤ 3 := by
  have h2 := ratRound_le (q * 10) 29 (by push_cast; linarith)
  simp only [round_to]
  push_cast at h2
  linarith

/-- Bound used by the variant-2 right presses: one rounded increment from a
value at least 0.6 stays at least one half. -/
theorem half_le_round_to (q : ℚ) (h : 6/10 ≤ q) : 1/2 ≤ round_to q := by
  have h2 := ratRound_ge (q * 10) 6 (by push_cast; linarith)
  simp only [round_to]
  push_cast at h2
  linarith

/-- Adjustable values of the second variant's Settings menu (the static
locals _ball_speed, _paddle_speed, _paddle_damping, _game_duration_secs,
_ai_difficulty of src/include/game.hpp lines 1340-1346). -/
structure SettingsV2State where
  ballSpeed : ℚ
  paddleSpeed : ℚ
  paddleDamping : ℚ
  gameDurationSecs : ℤ
  aiDifficulty : ℤ

/-- Initial values of the second variant's menu statics: the Config defaults
ball_speed 1.4, paddle_speed 1.0, paddle_damping 1.0, game_duration_secs 30,
ai_difficulty 1 (src/include/game.hpp lines 1041-1045). -/
def settingsV2Initial : SettingsV2State := ⟨7/5, 1, 1, 30, 1⟩

/-- A left-arrow press in the second variant (src/include/game.hpp lines
1431-1459): the numeric rows wrap the decrement in round_to before clamping
from below; rows 4-6 mutate only the audio globals and leave this state
unchanged. -/
def settingsV2Left (row : ℤ) (s : SettingsV2State) : SettingsV2State :=
  if row = 0 then
    { s with ballSpeed := max (1/2) (round_to (s.ballSpeed - 1/10)) }
  else if row = 1 then
    { s with paddleSpeed := max (1/2) (round_to (s.paddleSpeed - 1/10)) }
  else if row = 2 then
    { s with paddleDamping := max (4/5) (round_to (s.paddleDamping - 1/10)) }
  else if row = 3 then { s with aiDifficulty := max 0 (s.aiDifficulty - 1) }
  else if row = 7 then
    { s with gameDurationSecs := max 5 (s.gameDurationSecs - 1) }
  else s

/-- A right-arrow press in the second variant (src/include/game.hpp lines
1461-1489). -/
def settingsV2Right (row : ℤ) (s : SettingsV2State) : SettingsV2State :=
  if row = 0 then
    { s with ballSpeed := min 3 (round_to (s.ballSpeed + 1/10)) }
  else if row = 1 then
    { s with paddleSpeed := min 3 (round_to (s.paddleSpeed + 1/10)) }
  else if row = 2 then
    { s with paddleDamping := min 2 (round_to (s.paddleDamping + 1/10)) }
  else if row = 3 then { s with aiDifficulty := min 4 (s.aiDifficulty + 1) }
  else if row = 7 then
    { s with gameDurationSecs := min 600 (s.gameDurationSecs + 1) }
  else s

/-- Apply one adjustment in the second variant. -/
def settingsV2Step (s : SettingsV2State) (e : SettingsEvent) : SettingsV2State :=
  match e with
  | .left row => settingsV2Left row s
  | .right row => settingsV2Right row s

/-- Apply a whole sequence of adjustments in the second variant, starting
from its menu's initial values. -/
def settingsV2Run (es : List SettingsEvent) : SettingsV2State :=
  es.foldl settingsV2Step settingsV2Initial

/-- One variant-2 adjustment preserves the claimed ranges. -/
theorem settingsV2Step_ranges (s : SettingsV2State) (e : SettingsEvent)
    (h : 1/2 ≤ s.ballSpeed ∧ s.ballSpeed ≤ 3 ∧
      0 ≤ s.aiDifficulty ∧ s.aiDifficulty ≤ 4) :
    1/2 ≤ (settingsV2Step s e).ballSpeed ∧
    (settingsV2Step s e).ballSpeed ≤ 3 ∧
    0 ≤ (settingsV2Step s e).aiDifficulty ∧
    (settingsV2Step s e).aiDifficulty ≤ 4 := by
  obtain ⟨h1, h2, h3, h4⟩ := h
  cases e <;> simp only [settingsV2Step, settingsV2Left, settingsV2Right] <;>
    split_ifs <;>
    refine ⟨?_, ?_, ?_, ?_⟩ <;>
    first
      | assumption
      | exact le_max_left _ _
      | exact min_le_left _ _
      | exact max_le (by norm_num) (by linarith)
      | exact le_min (by norm_num) (by linarith)
      | exact max_le (by norm_num) (round_to_le_three _ (by linarith))
      | exact le_min (by norm_num) (half_le_round_to _ (by linarith))

/-- One adjustment preserves the claimed ranges. -/
theorem settingsStep_ranges (s : SettingsState) (e : SettingsEvent)
    (h : 1/2 ≤ s.ballSpeed ∧ s.ballSpeed ≤ 3 ∧
      0 ≤ s.aiDifficulty ∧ s.aiDifficulty ≤ 4) :
    1/2 ≤ (settingsStep s e).ballSpeed ∧ (settingsStep s e).ballSpeed ≤ 3 ∧
    0 ≤ (settingsStep s e).aiDifficulty ∧
    (settingsStep s e).aiDifficulty ≤ 4 := by
  obtain ⟨h1, h2, h3, h4⟩ := h
  cases e <;> simp only [settingsStep, settingsLeft, settingsRight] <;>
    split_ifs <;>
    refine ⟨?_, ?_, ?_, ?_⟩ <;>
    first
      | assumption
      | exact le_max_left _ _
      | exact min_le_left _ _
      | exact max_le (by norm_num) (by linarith)
      | exact le_min (by norm_num) (by linarith)
      | exact max_le (by norm_num) (by omega)
      | exact le_min (by norm_num) (by omega)

/-- C7: under every sequence of Settings-menu left/right adjustments starting
from the menu's initial values, the ball_speed setting never leaves
[0.5, 3.0] and the ai_difficulty setting never leaves [0, 4] — in the
src/game.hpp menu (plain clamped steps from 1.0 and difficulty 1) and in the
src/include/game.hpp menu (round_to-wrapped steps from the Config defaults
1.4 and difficulty 1) alike. -/
theorem settings_menu_clamped (es : List SettingsEvent) :
    (1/2 ≤ (settingsRun es).ballSpeed ∧ (settingsRun es).ballSpeed ≤ 3 ∧
     0 ≤ (settingsRun es).aiDifficulty ∧
     (settingsRun es).aiDifficulty ≤ 4) ∧
    (1/2 ≤ (settingsV2Run es).ballSpeed ∧ (settingsV2Run es).ballSpeed ≤ 3 ∧
     0 ≤ (settingsV2Run es).aiDifficulty ∧
     (settingsV2Run es).aiDifficulty ≤ 4) := by
  constructor
  · suffices h : ∀ (l : List SettingsEvent) (s : SettingsState),
        (1/2 ≤ s.ballSpeed ∧ s.ballSpeed ≤ 3 ∧
          0 ≤ s.aiDifficulty ∧ s.aiDifficulty ≤ 4) →
        1/2 ≤ (l.foldl settingsStep s).ballSpeed ∧
        (l.foldl settingsStep s).ballSpeed ≤ 3 ∧
        0 ≤ (l.foldl settingsStep s).aiDifficulty ∧
        (l.foldl settingsStep s).aiDifficulty ≤ 4 by
      exact h es settingsInitial (by norm_num [settingsInitial])
    intro l
    induction l with
    | nil => intro s hs; exact hs
    | cons e l ih =>
      intro s hs
      exact ih (settingsStep s e) (settingsStep_ranges s e hs)
  · suffices h : ∀ (l : List SettingsEvent) (s : SettingsV2State),
        (1/2 ≤ s.ballSpeed ∧ s.ballSpeed ≤ 3 ∧
          0 ≤ s.aiDifficulty ∧ s.aiDifficulty ≤ 4) →
        1/2 ≤ (l.foldl settingsV2Step s).ballSpeed ∧
        (l.foldl settingsV2Step s).ballSpeed ≤ 3 ∧
        0 ≤ (l.foldl settingsV2Step s).aiDifficulty ∧
        (l.foldl settingsV2Step s).aiDifficulty ≤ 4 by
      exact h es settingsV2Initial (by norm_num [settingsV2Initial])
    intro l
    induction l with
    | nil => intro s hs; exact hs
    | cons e l ih =>
      intro s hs
      exact ih (settingsV2Step s e) (settingsV2Step_ranges s e hs)

/-- FONT_5x7 of src/game.hpp (lines 244-286): ten digit glyphs, twenty-six
letter glyphs, and the all-zero space glyph at index 36.  Each glyph is seven
row bitmaps of five bits. -/
def fontV1 : List (List ℕ) := [
  [0x0E, 0x11, 0x13, 0x15, 0x19, 0x11, 0x0E],
  [0x04, 0x0C, 0x04, 0x04, 0x04, 0x04, 0x0E],
  [0x0E, 0x11, 0x01, 0x02, 0x04, 0x08, 0x1F],
  [0x0E, 0x11, 0x01, 0x06, 0x01, 0x11, 0x0E],
  [0x02, 0x06, 0x0A, 0x12, 0x1F, 0x02, 0x02],
  [0x1F, 0x10, 0x1E, 0x01, 0x01, 0x11, 0x0E],
  [0x06, 0x08, 0x10, 0x1E, 0x11, 0x11, 0x0E],
  [0x1F, 0x01, 0x02, 0x04, 0x08, 0x08, 0x08],
  [0x0E, 0x11, 0x11, 0x0E, 0x11, 0x11, 0x0E],
  [0x0E, 0x11, 0x11, 0x0F, 0x01, 0x02, 0x0C],
  [0x0E, 0x11, 0x11, 0x1F, 0x11, 0x11, 0x11],
  [0x1E, 0x11, 0x11, 0x1E, 0x11, 0x11, 0x1E],
  [0x0E, 0x11, 0x10, 0x10, 0x10, 0x11, 0x0E],
  [0x1C, 0x12, 0x11, 0x11, 0x11, 0x12, 0x1C],
  [0x1F, 0x10, 0x10, 0x1C, 0x10, 0x10, 0x1F],
  [0x1F, 0x10, 0x10, 0x1C, 0x10, 0x10, 0x10],
  [0x0E, 0x11, 0x10, 0x17, 0x11, 0x11, 0x0F],
  [0x11, 0x11, 0x11, 0x1F, 0x11, 0x11, 0x11],
  [0x0E, 0x04, 0x04, 0x04, 0x04, 0x04, 0x0E],
  [0x07, 0x02, 0x02, 0x02, 0x02, 0x12, 0x0C],
  [0x11, 0x12, 0x14, 0x18, 0x14, 0x12, 0x11],
  [0x10, 0x10, 0x10, 0x10, 0x10, 0x10, 0x1F],
  [0x11, 0x1B, 0x15, 0x15, 0x11, 0x11, 0x11],
  [0x11, 0x19, 0x15, 0x13, 0x11, 0x11, 0x11],
  [0x0E, 0x11, 0x11, 0x11, 0x11, 0x11, 0x0E],
  [0x1E, 0x11, 0x11, 0x1E, 0x10, 0x10, 0x10],
  [0x0E, 0x11, 0x11, 0x11, 0x15, 0x12, 0x0D],
  [0x1E, 0x11, 0x11, 0x1E, 0x14, 0x12, 0x11],
  [0x0F, 0x10, 0x10, 0x0E, 0x01, 0x01, 0x1E],
  [0x1F, 0x04, 0x04, 0x04, 0x04, 0x04, 0x04],
  [0x11, 0x11, 0x11, 0x11, 0x11, 0x11, 0x0E],
  [0x11, 0x11, 0x11, 0x0A, 0x0A, 0x04, 0x04],
  [0x11, 0x11, 0x11, 0x15, 0x15, 0x1B, 0x11],
  [0x11, 0x11, 0x0A, 0x04, 0x0A, 0x11, 0x11],
  [0x11, 0x11, 0x0A, 0x04, 0x04, 0x04, 0x04],
  [0x1F, 0x01, 0x02, 0x04, 0x08, 0x10, 0x1F],
  [0x00, 0x00, 0x00, 0x00, 0x00, 0x00, 0x00]]

/-- FONT_5x7 of src/include/game.hpp (lines 174-228): the same 37 glyphs
followed by the four punctuation glyphs for the percent sign, colon, dash
and exclamation mark at indexes 37-40. -/
def fontV2 : List (List ℕ) := [
  [0x0E, 0x11, 0x13, 0x15, 0x19, 0x11, 0x0E],
  [0x04, 0x0C, 0x04, 0x04, 0x04, 0x04, 0x0E],
  [0x0E, 0x11, 0x01, 0x02, 0x04, 0x08, 0x1F],
  [0x0E, 0x11, 0x01, 0x06, 0x01, 0x11, 0x0E],
  [0x02, 0x06, 0x0A, 0x12, 0x1F, 0x02, 0x02],
  [0x1F, 0x10, 0x1E, 0x01, 0x01, 0x11, 0x0E],
  [0x06, 0x08, 0x10, 0x1E, 0x11, 0x11, 0x0E],
  [0x1F, 0x01, 0x02, 0x04, 0x08, 0x08, 0x08],
  [0x0E, 0x11, 0x11, 0x0E, 0x11, 0x11, 0x0E],
  [0x0E, 0x11, 0x11, 0x0F, 0x01, 0x02, 0x0C],
  [0x0E, 0x11, 0x11, 0x1F, 0x11, 0x11, 0x11],
  [0x1E, 0x11, 0x11, 0x1E, 0x11, 0x11, 0x1E],
  [0x0E, 0x11, 0x10, 0x10, 0x10, 0x11, 0x0E],
  [0x1C, 0x12, 0x11, 0x11, 0x11, 0x12, 0x1C],
  [0x1F, 0x10, 0x10, 0x1C, 0x10, 0x10, 0x1F],
  [0x1F, 0x10, 0x10, 0x1C, 0x10, 0x10, 0x10],
  [0x0E, 0x11, 0x10, 0x17, 0x11, 0x11, 0x0F],
  [0x11, 0x11, 0x11, 0x1F, 0x11, 0x11, 0x11],
  [0x0E, 0x04, 0x04, 0x04, 0x04, 0x04, 0x0E],
  [0x07, 0x02, 0x02, 0x02, 0x02, 0x12, 0x0C],
  [0x11, 0x12, 0x14, 0x18, 0x14, 0x12, 0x11],
  [0x10, 0x10, 0x10, 0x10, 0x10, 0x10, 0x1F],
  [0x11, 0x1B, 0x15, 0x15, 0x11, 0x11, 0x11],
  [0x11, 0x19, 0x15, 0x13, 0x11, 0x11, 0x11],
  [0x0E, 0x11, 0x11, 0x11, 0x11, 0x11, 0x0E],
  [0x1E, 0x11, 0x11, 0x1E, 0x10, 0x10, 0x10],
  [0x0E, 0x11, 0x11, 0x11, 0x15, 0x12, 0x0D],
  [0x1E, 0x11, 0x11, 0x1E, 0x14, 0x12, 0x11],
  [0x0F, 0x10, 0x10, 0x0E, 0x01, 0x01, 0x1E],
  [0x1F, 0x04, 0x04, 0x04, 0x04, 0x04, 0x04],
  [0x11, 0x11, 0x11, 0x11, 0x11, 0x11, 0x0E],
  [0x11, 0x11, 0x11, 0x0A, 0x0A, 0x04, 0x04],
  [0x11, 0x11, 0x11, 0x15, 0x15, 0x1B, 0x11],
  [0x11, 0x11, 0x0A, 0x04, 0x0A, 0x11, 0x11],
  [0x11, 0x11, 0x0A, 0x04, 0x04, 0x04, 0x04],
  [0x1F, 0x01, 0x02, 0x04, 0x08, 0x10, 0x1F],
  [0x00, 0x00, 0x00, 0x00, 0x00, 0x00, 0x00],
  [0x19, 0x1A, 0x04, 0x08, 0x13, 0x03, 0x00],
  [0x00, 0x04, 0x00, 0x00, 0x04, 0x00, 0x00],
  [0x00, 0x00, 0x00, 0x0E, 0x00, 0x00, 0x00],
  [0x04, 0x04, 0x04, 0x04, 0x00, 0x04, 0x00]]

/-- The all-zero blank glyph (the space glyph at index 36 of both tables). -/
def blankGlyph : List ℕ := [0, 0, 0, 0, 0, 0, 0]

/-- Character clamping and table-index computation of render_glyph_5x7 in
src/game.hpp lines 97-107, on the signed-char code c0: codes outside
[32, 90] are replaced by 32 (space); digits map to 0-9, capital letters to
10-35, everything else to the space index 36. -/
def charIndexV1 (c0 : ℤ) : ℕ :=
  let c := if c0 < 32 ∨ c0 > 90 then 32 else c0
  if 48 ≤ c ∧ c ≤ 57 then (c - 48).toNat
  else if 65 ≤ c ∧ c ≤ 90 then (10 + (c - 65)).toNat
  else 36

/-- The same computation in src/include/game.hpp lines 119-136, with the four
punctuation codes 37 percent, 58 colon, 45 dash and 33 exclamation mapped to
indexes 37-40. -/
def charIndexV2 (c0 : ℤ) : ℕ :=
  let c := if c0 < 32 ∨ c0 > 90 then 32 else c0
  if 48 ≤ c ∧ c ≤ 57 then (c - 48).toNat
  else if 65 ≤ c ∧ c ≤ 90 then (10 + (c - 65)).toNat
  else if c = 37 then 37
  else if c = 58 then 38
  else if c = 45 then 39
  else if c = 33 then 40
  else 36

/-- Character codes with a dedicated (possibly nonblank) glyph in variant 1:
digits and capital letters. -/
def supportedV1 (c : ℤ) : Prop := (48 ≤ c ∧ c ≤ 57) ∨ (65 ≤ c ∧ c ≤ 90)

/-- Character codes with a dedicated glyph in variant 2: additionally the
four punctuation marks. -/
def supportedV2 (c : ℤ) : Prop :=
  supportedV1 c ∨ c = 37 ∨ c = 58 ∨ c = 45 ∨ c = 33

/-- Bit test of the glyph loop (src/game.hpp line 122): bit W-1-rx of the
row bitmap, W = 5. -/
def glyphBit (row : ℕ) (rx : ℕ) : Bool := (row >>> (4 - rx)) &&& 1 = 1

/-- Number of pixels render_glyph_5x7 draws for a glyph: set bits over the
seven rows and five columns. -/
def glyphOnCount (rows : List ℕ) : ℕ :=
  (rows.map fun row =>
    ((List.range 5).filter fun rx => glyphBit row rx).length).sum

/-- The variant-1 index always lands inside the 37-entry table. -/
theorem charIndexV1_lt (c : ℤ) : charIndexV1 c < 37 := by
  simp only [charIndexV1]
  split_ifs <;> omega

/-- The variant-2 index always lands inside the 41-entry table. -/
theorem charIndexV2_lt (c : ℤ) : charIndexV2 c < 41 := by
  simp only [charIndexV2]
  split_ifs <;> omega

/-- Unsupported codes select index 36 in variant 1. -/
theorem charIndexV1_unsupported (c : ℤ) (h : ¬ supportedV1 c) :
    charIndexV1 c = 36 := by
  simp only [supportedV1] at h
  simp only [charIndexV1]
  split_ifs <;> omega

/-- Unsupported codes select index 36 in variant 2. -/
theorem charIndexV2_unsupported (c : ℤ) (h : ¬ supportedV2 c) :
    charIndexV2 c = 36 := by
  simp only [supportedV2, supportedV1] at h
  simp only [charIndexV2]
  split_ifs <;> omega

/-- C8: for every signed-char code, render_glyph_5x7's computed font-table
index is within the bounds of FONT_5x7 in both variants, and every character
outside the supported set deterministically selects the all-zero blank
glyph, so the call draws zero pixels for such characters and never indexes
out of bounds. -/
theorem glyph_index_safe (c : ℤ) (hlo : -128 ≤ c) (hhi : c ≤ 127) :
    charIndexV1 c < fontV1.length ∧ charIndexV2 c < fontV2.length ∧
    (¬ supportedV1 c →
      fontV1.getD (charIndexV1 c) blankGlyph = blankGlyph ∧
      glyphOnCount (fontV1.getD (charIndexV1 c) blankGlyph) = 0) ∧
    (¬ supportedV2 c →
      fontV2.getD (charIndexV2 c) blankGlyph = blankGlyph ∧
      glyphOnCount (fontV2.getD (charIndexV2 c) blankGlyph) = 0) := by
  refine ⟨?_, ?_, fun h => ?_, fun h => ?_⟩
  · have hl : fontV1.length = 37 := rfl
    rw [hl]
    exact charIndexV1_lt c
  · have hl : fontV2.length = 41 := rfl
    rw [hl]
    exact charIndexV2_lt c
  · rw [charIndexV1_unsupported c h]
    exact ⟨rfl, by decide⟩
  · rw [charIndexV2_unsupported c h]
    exact ⟨rfl, by decide⟩

/-- Witness for C8 at a concrete input: the signed-char code -5 (an
out-of-range character) maps to the blank glyph in both variants. -/
theorem glyph_index_safe_witness :
    -128 ≤ (-5 : ℤ) ∧ (-5 : ℤ) ≤ 127 ∧
    (charIndexV1 (-5) < fontV1.length ∧ charIndexV2 (-5) < fontV2.length ∧
     (¬ supportedV1 (-5) →
       fontV1.getD (charIndexV1 (-5)) blankGlyph = blankGlyph ∧
       glyphOnCount (fontV1.getD (charIndexV1 (-5)) blankGlyph) = 0) ∧
     (¬ supportedV2 (-5) →
       fontV2.getD (charIndexV2 (-5)) blankGlyph = blankGlyph ∧
       glyphOnCount (fontV2.getD (charIndexV2 (-5)) blankGlyph) = 0)) :=
  ⟨by norm_num, by norm_num,
    glyph_index_safe (-5) (by norm_num) (by norm_num)⟩

/-- Vector2 of the source: a pair of virtual-space coordinates. -/
structure Vec2 where
  x : ℚ
  y : ℚ

/-- Player.predict_ball (src/game.hpp lines 413-471), which computes the
AI's target_y.  The engagement test, the positive-time-of-flight test, the
trajectory fold, and the per-level perturbation follow the source verbatim;
the two rand() draws enter as the uniform parameter r (rand()/RAND_MAX, in
[0,1]) and the Boolean mistake (rand() % 15 == 0 for level 1, rand() % 5 == 0
for level 2).  Returns target_y, unchanged when prediction does not run. -/
def predictBall (ballVel ballPos : Vec2) (paddleX targetY : ℚ) (level : ℕ)
    (r : ℚ) (mistake : Bool) : ℚ :=
  let top : ℚ := 50
  let highVY : ℚ := 100
  if (|ballVel.y| > highVY) ∧ (|ballVel.x| > 1/10000) ∧
      ((paddleX ≥ 0 ∧ ballVel.x > 0) ∨ (paddleX < 0 ∧ ballVel.x < 0)) then
    let t := (paddleX - ballPos.x) / ballVel.x
    if t > 0 then
      let finalY := foldTrajectory (ballPos.y + ballVel.y * t)
      if level = 1 then
        let inacc := r * 12 - 16
        let finalY1 := finalY + inacc
        let finalY2 := if mistake then top else finalY1
        finalY2 + inacc
      else if level = 2 then
        let inacc := r * 12 - 10
        let finalY1 := finalY + inacc
        let finalY2 := if mistake then top else finalY1
        finalY2 + inacc
      else if level = 3 then finalY + 10
      else targetY
    else ballPos.y
  else targetY

/-- C9: whenever the trajectory predictor fires (high vertical speed, ball
moving toward the paddle's side, positive time of flight) and the forced
mistake does not trigger, the Hard tier (level 1) draws its inaccuracy from
[-16, -4] and adds it twice, so the target is the folded prediction plus
twice the draw, hence between 8 and 32 units strictly below it and never
above; the VeryHard tier (level 2) likewise adds its draw from [-10, 2]
twice. -/
theorem predict_ball_double_bias (ballVel ballPos : Vec2)
    (paddleX targetY r : ℚ)
    (hvy : |ballVel.y| > 100) (hvx : |ballVel.x| > 1/10000)
    (hdir : (paddleX ≥ 0 ∧ ballVel.x > 0) ∨ (paddleX < 0 ∧ ballVel.x < 0))
    (ht : (paddleX - ballPos.x) / ballVel.x > 0)
    (hr0 : 0 ≤ r) (hr1 : r ≤ 1) :
    (predictBall ballVel ballPos paddleX targetY 1 r false
        = foldTrajectory
            (ballPos.y + ballVel.y * ((paddleX - ballPos.x) / ballVel.x))
          + 2 * (r * 12 - 16) ∧
      -16 ≤ r * 12 - 16 ∧ r * 12 - 16 ≤ -4 ∧
      predictBall ballVel ballPos paddleX targetY 1 r false
        ≤ foldTrajectory
            (ballPos.y + ballVel.y * ((paddleX - ballPos.x) / ballVel.x))
          - 8 ∧
      foldTrajectory
          (ballPos.y + ballVel.y * ((paddleX - ballPos.x) / ballVel.x))
        - 32
        ≤ predictBall ballVel ballPos paddleX targetY 1 r false) ∧
    (predictBall ballVel ballPos paddleX targetY 2 r false
        = foldTrajectory
            (ballPos.y + ballVel.y * ((paddleX - ballPos.x) / ballVel.x))
          + 2 * (r * 12 - 10) ∧
      -10 ≤ r * 12 - 10 ∧ r * 12 - 10 ≤ 2) := by
  have heval1 : predictBall ballVel ballPos paddleX targetY 1 r false
      = foldTrajectory
          (ballPos.y + ballVel.y * ((paddleX - ballPos.x) / ballVel.x))
        + 2 * (r * 12 - 16) := by
    simp only [predictBall]
    rw [if_pos ⟨hvy, hvx, hdir⟩, if_pos ht]
    norm_num
    ring
  have heval2 : predictBall ballVel ballPos paddleX targetY 2 r false
      = foldTrajectory
          (ballPos.y + ballVel.y * ((paddleX - ballPos.x) / ballVel.x))
        + 2 * (r * 12 - 10) := by
    simp only [predictBall]
    rw [if_pos ⟨hvy, hvx, hdir⟩, if_pos ht]
    norm_num
    ring
  refine ⟨⟨heval1, by linarith, by linarith, ?_, ?_⟩,
    heval2, by linarith, by linarith⟩
  · rw [heval1]; linarith
  · rw [heval1]; linarith

/-- Witness for C9 at a concrete input: a steep ball heading for the right
paddle, with the uniform draw at one half. -/
theorem predict_ball_double_bias_witness :
    |(150 : ℚ)| > 100 ∧ (0 : ℚ) ≤ 1/2 ∧ (1/2 : ℚ) ≤ 1 ∧
    ((predictBall ⟨95, 150⟩ ⟨0, 0⟩ 70 0 1 (1/2) false
        = foldTrajectory ((0 : ℚ) + 150 * (((70 : ℚ) - 0) / 95))
          + 2 * ((1/2 : ℚ) * 12 - 16) ∧
      -16 ≤ (1/2 : ℚ) * 12 - 16 ∧ (1/2 : ℚ) * 12 - 16 ≤ -4 ∧
      predictBall ⟨95, 150⟩ ⟨0, 0⟩ 70 0 1 (1/2) false
        ≤ foldTrajectory ((0 : ℚ) + 150 * (((70 : ℚ) - 0) / 95)) - 8 ∧
      foldTrajectory ((0 : ℚ) + 150 * (((70 : ℚ) - 0) / 95)) - 32
        ≤ predictBall ⟨95, 150⟩ ⟨0, 0⟩ 70 0 1 (1/2) false) ∧
     (predictBall ⟨95, 150⟩ ⟨0, 0⟩ 70 0 2 (1/2) false
        = foldTrajectory ((0 : ℚ) + 150 * (((70 : ℚ) - 0) / 95))
          + 2 * ((1/2 : ℚ) * 12 - 10) ∧
      -10 ≤ (1/2 : ℚ) * 12 - 10 ∧ (1/2 : ℚ) * 12 - 10 ≤ 2)) :=
  ⟨by norm_num, by norm_num, by norm_num,
    predict_ball_double_bias ⟨95, 150⟩ ⟨0, 0⟩ 70 0 (1/2)
      (by norm_num) (by norm_num) (Or.inl ⟨by norm_num, by norm_num⟩)
      (by norm_num) (by norm_num) (by norm_num)⟩

end PingPong
